import Mathlib

/-!
# MacWindow

A shallow embedding of `Engine/Monkey/Application/Mac/MacWindow.cpp` and the
properties of its window object.

* An `int32` is an `Int`; the only arithmetic in the file, the two sums of
  `IsPointInWindow`, is reduced to the 32-bit two's-complement range by
  `wrapInt32`.
* A `float` is an element of a type `F` carrying the four operations the file
  uses (`FloatOps F`): nothing is assumed about rounding, so every theorem
  holds of the IEEE single-precision arithmetic of the target.
* A method that is not `const` is a function from the state before the call to
  the state after it (paired with the returned value when there is one); a
  `const` method is a function from the state to the returned value.
-/

namespace MacWindowModel

/-! ## Machine types -/

/-- The least `int32`, as an integer. -/
def INT32_MIN : Int := -2147483648

/-- The greatest `int32`, as an integer. -/
def INT32_MAX : Int := 2147483647

/-- Predicate: the integer is the value of some `int32`. -/
def InInt32 (n : Int) : Prop := INT32_MIN ≤ n ∧ n ≤ INT32_MAX

instance (n : Int) : Decidable (InInt32 n) := by
  unfold InInt32; exact inferInstance

/-- Two's-complement reduction of an integer to the `int32` range: the value an
`int32` sum takes on the target when the exact sum is `n`. -/
def wrapInt32 (n : Int) : Int := (n + 2147483648) % 4294967296 - 2147483648

/-- The `float` operations used by the source: the conversion of an `int32`,
the literal `1.0f`, the product and the quotient. -/
structure FloatOps (F : Type) where
  /-- Conversion `int32 → float`. -/
  ofInt32 : Int → F
  /-- The literal `1.0f`. -/
  one : F
  /-- Product `a * b`. -/
  mul : F → F → F
  /-- Quotient `a / b`. -/
  div : F → F → F

/-- Uninterpreted `float` expressions: a value is the expression that computes
it. Every implementation of `FloatOps` is an interpretation of these. -/
inductive FloatTerm where
  | ofInt32 (n : Int)
  | one
  | mul (a b : FloatTerm)
  | div (a b : FloatTerm)
  deriving DecidableEq, Repr

/-- The operations on uninterpreted `float` expressions. -/
def FloatTerm.ops : FloatOps FloatTerm :=
  { ofInt32 := FloatTerm.ofInt32
    one := FloatTerm.one
    mul := FloatTerm.mul
    div := FloatTerm.div }

/-- Modelled from the spec: the enumeration `WindowMode::Type` is declared in a
header outside the sources; the spec gives it as "windowed/other", and only
`Windowed` occurs in the code. -/
inductive WindowMode where
  | Windowed
  | Other (tag : Nat)
  deriving DecidableEq, Repr

/-- A `MacApplication*`: `none` is `nullptr`, `some a` the application at
address `a`. -/
abbrev MacApplicationPtr := Option Nat

/-- A `const char*`: `none` is `nullptr`, `some s` points to the text `s`. -/
abbrev CString := Option String

/-- Name of the generic surface extension, `VK_KHR_SURFACE_EXTENSION_NAME` of
the Vulkan headers. -/
def VK_KHR_SURFACE_EXTENSION_NAME : String := "VK_KHR_surface"

/-- Name of the macOS surface extension, `VK_MVK_MACOS_SURFACE_EXTENSION_NAME`
of the Vulkan headers. -/
def VK_MVK_MACOS_SURFACE_EXTENSION_NAME : String := "VK_MVK_macos_surface"

/-- The static array `G_ValidationLayersInstance`: two names and `nullptr`. -/
def G_ValidationLayersInstance : List CString :=
  [some VK_KHR_SURFACE_EXTENSION_NAME,
   some VK_MVK_MACOS_SURFACE_EXTENSION_NAME,
   none]

/-! ## The window object -/

/-- Modelled from the spec: the base class `GenericWindow` is declared in a
header outside the sources; it holds the geometry the methods of `MacWindow`
read and write: "position (x, y), size (width, height)". -/
structure GenericWindow where
  m_X : Int
  m_Y : Int
  m_Width : Int
  m_Height : Int
  deriving DecidableEq, Repr

/-- The fields of a `MacWindow`: those of the base class and the ones the
constructor initialises. -/
structure MacWindow (F : Type) extends GenericWindow where
  m_Title : CString
  m_WindowMode : WindowMode
  m_Application : MacApplicationPtr
  m_Visible : Bool
  m_AspectRatio : F
  m_DPIScaleFactor : F
  m_Minimized : Bool
  m_Maximized : Bool

namespace MacWindow

variable {F : Type}

/-- The constructor `MacWindow::MacWindow(width, height, title)`. The base part
is built by `GenericWindow(width, height)`, whose body is outside the sources
and is the parameter `base`. -/
def new (fl : FloatOps F) (base : Int → Int → GenericWindow)
    (width height : Int) (title : CString) : MacWindow F :=
  { toGenericWindow := base width height
    m_Title := title
    m_WindowMode := WindowMode.Windowed
    m_Application := none
    m_Visible := false
    m_AspectRatio := fl.div (fl.mul (fl.ofInt32 width) fl.one) (fl.ofInt32 height)
    m_DPIScaleFactor := fl.one
    m_Minimized := false
    m_Maximized := false }

/-- The factory `MacWindow::Make`: a new window from the constructor. -/
def Make (fl : FloatOps F) (base : Int → Int → GenericWindow)
    (width height : Int) (title : CString) : MacWindow F :=
  new fl base width height title

/-- `MacWindow::GetDPIScaleFactorAtPoint`: returns `1.0f`, writes nothing. -/
def GetDPIScaleFactorAtPoint (fl : FloatOps F) (s : MacWindow F) (_X _Y : F) :
    F × MacWindow F :=
  (fl.one, s)

/-- `MacWindow::CreateVKSurface`: empty body; `*outSurface` is left as it is. -/
def CreateVKSurface (s : MacWindow F) (_vkInstance : Nat) (outSurface : Nat) :
    Nat × MacWindow F :=
  (outSurface, s)

/-- Result of `GetRequiredInstanceExtensions`: the value stored in `*count`,
the returned array and the state after the call. -/
structure RequiredInstanceExtensions (F : Type) where
  count : Nat
  names : List CString
  state : MacWindow F

/-- `MacWindow::GetRequiredInstanceExtensions`: stores 2 in `*count` (whose
prior content is `_count`) and returns the static array. -/
def GetRequiredInstanceExtensions (s : MacWindow F) (_count : Nat) :
    RequiredInstanceExtensions F :=
  { count := 2
    names := G_ValidationLayersInstance
    state := s }

/-- `MacWindow::GetOSWindowHandle`: returns `nullptr`. -/
def GetOSWindowHandle (_s : MacWindow F) : Option Nat := none

/-- `MacWindow::GetAspectRatio`. -/
def GetAspectRatio (s : MacWindow F) : F := s.m_AspectRatio

/-- `MacWindow::GetDPIScaleFactor`. -/
def GetDPIScaleFactor (s : MacWindow F) : F := s.m_DPIScaleFactor

/-- `MacWindow::SetDPIScaleFactor`: empty body. -/
def SetDPIScaleFactor (s : MacWindow F) (_value : F) : MacWindow F := s

/-- `MacWindow::Initialize`: records the application. -/
def Initialize (s : MacWindow F) (application : MacApplicationPtr) : MacWindow F :=
  { s with m_Application := application }

/-- `MacWindow::ReshapeWindow`: the four assignments. -/
def ReshapeWindow (s : MacWindow F) (newX newY newWidth newHeight : Int) :
    MacWindow F :=
  { s with m_X := newX, m_Y := newY, m_Width := newWidth, m_Height := newHeight }

/-- `MacWindow::GetFullScreenInfo`: returns `true` and leaves the four
reference arguments as they are. -/
def GetFullScreenInfo (_s : MacWindow F) (x y width height : Int) :
    Bool × Int × Int × Int × Int :=
  (true, x, y, width, height)

/-- `MacWindow::MoveWindowTo`: the two assignments. -/
def MoveWindowTo (s : MacWindow F) (x y : Int) : MacWindow F :=
  { s with m_X := x, m_Y := y }

/-- `MacWindow::BringToFront`: empty body. -/
def BringToFront (s : MacWindow F) (_force : Bool) : MacWindow F := s

/-- `MacWindow::Destroy`: empty body. -/
def Destroy (s : MacWindow F) : MacWindow F := s

/-- `MacWindow::Minimize`: assigns `false` to `m_Minimized`. -/
def Minimize (s : MacWindow F) : MacWindow F :=
  { s with m_Minimized := false }

/-- `MacWindow::Maximize`: assigns `true` to `m_Maximized`. -/
def Maximize (s : MacWindow F) : MacWindow F :=
  { s with m_Maximized := true }

/-- `MacWindow::Restore`: empty body. -/
def Restore (s : MacWindow F) : MacWindow F := s

/-- `MacWindow::Show`: returns at once when visible, else sets `m_Visible`. -/
def Show (s : MacWindow F) : MacWindow F :=
  if s.m_Visible then s else { s with m_Visible := true }

/-- `MacWindow::Hide`: returns at once when not visible, else clears
`m_Visible`. -/
def Hide (s : MacWindow F) : MacWindow F :=
  if !s.m_Visible then s else { s with m_Visible := false }

/-- `MacWindow::SetWindowMode`: empty body. -/
def SetWindowMode (s : MacWindow F) (_newWindowMode : WindowMode) : MacWindow F := s

/-- `MacWindow::IsMaximized`. -/
def IsMaximized (s : MacWindow F) : Bool := s.m_Maximized

/-- `MacWindow::IsMinimized`. -/
def IsMinimized (s : MacWindow F) : Bool := s.m_Minimized

/-- `MacWindow::IsVisible`. -/
def IsVisible (s : MacWindow F) : Bool := s.m_Visible

/-- `MacWindow::GetRestoredDimensions`: returns `true`, leaves the four
reference arguments and the window as they are. -/
def GetRestoredDimensions (s : MacWindow F) (x y width height : Int) :
    (Bool × Int × Int × Int × Int) × MacWindow F :=
  ((true, x, y, width, height), s)

/-- `MacWindow::SetWindowFocus`: empty body. -/
def SetWindowFocus (s : MacWindow F) : MacWindow F := s

/-- `MacWindow::SetOpacity`: empty body. -/
def SetOpacity (s : MacWindow F) (_opacity : F) : MacWindow F := s

/-- `MacWindow::Enable`: empty body. -/
def Enable (s : MacWindow F) (_enable : Bool) : MacWindow F := s

/-- `MacWindow::IsPointInWindow`: the two pairs of strict comparisons, in the
order of the source (`&&` evaluates left to right); the sums are `int32`
sums. -/
def IsPointInWindow (s : MacWindow F) (x y : Int) : Bool :=
  if (decide (x > s.m_X) && decide (x < wrapInt32 (s.m_X + s.m_Width)))
      && (decide (y > s.m_Y) && decide (y < wrapInt32 (s.m_Y + s.m_Height))) then
    true
  else
    false

/-- `MacWindow::GetWindowBorderSize`: returns 0. -/
def GetWindowBorderSize (_s : MacWindow F) : Int := 0

/-- `MacWindow::GetWindowTitleBarSize`: returns 0. -/
def GetWindowTitleBarSize (_s : MacWindow F) : Int := 0

/-- `MacWindow::IsForegroundWindow`: returns `false`. -/
def IsForegroundWindow (_s : MacWindow F) : Bool := false

/-- `MacWindow::SetText`: replaces the title. -/
def SetText (s : MacWindow F) (text : CString) : MacWindow F :=
  { s with m_Title := text }

end MacWindow

/-! ## Sequences of calls -/

/-- One call of a method of `MacWindow.cpp` on an existing window, with its
arguments (every method of the file but the constructor, the destructor and
the static factory). -/
inductive Op (F : Type) where
  | GetDPIScaleFactorAtPoint (X Y : F)
  | CreateVKSurface (vkInstance outSurface : Nat)
  | GetRequiredInstanceExtensions (count : Nat)
  | GetOSWindowHandle
  | GetAspectRatio
  | GetDPIScaleFactor
  | SetDPIScaleFactor (value : F)
  | Initialize (application : MacApplicationPtr)
  | ReshapeWindow (newX newY newWidth newHeight : Int)
  | GetFullScreenInfo (x y width height : Int)
  | MoveWindowTo (x y : Int)
  | BringToFront (force : Bool)
  | Destroy
  | Minimize
  | Maximize
  | Restore
  | Show
  | Hide
  | SetWindowMode (newWindowMode : WindowMode)
  | IsMaximized
  | IsMinimized
  | IsVisible
  | GetRestoredDimensions (x y width height : Int)
  | SetWindowFocus
  | SetOpacity (opacity : F)
  | Enable (enable : Bool)
  | IsPointInWindow (x y : Int)
  | GetWindowBorderSize
  | GetWindowTitleBarSize
  | IsForegroundWindow
  | SetText (text : CString)

/-- State of the window after one call: the state the method leaves for a
method that is not `const`, the state before the call for a `const` one. -/
def Op.apply {F : Type} (fl : FloatOps F) (s : MacWindow F) : Op F → MacWindow F
  | Op.GetDPIScaleFactorAtPoint X Y => (s.GetDPIScaleFactorAtPoint fl X Y).2
  | Op.CreateVKSurface vkInstance outSurface => (s.CreateVKSurface vkInstance outSurface).2
  | Op.GetRequiredInstanceExtensions count => (s.GetRequiredInstanceExtensions count).state
  | Op.GetOSWindowHandle => s
  | Op.GetAspectRatio => s
  | Op.GetDPIScaleFactor => s
  | Op.SetDPIScaleFactor value => s.SetDPIScaleFactor value
  | Op.Initialize application => s.Initialize application
  | Op.ReshapeWindow newX newY newWidth newHeight =>
      s.ReshapeWindow newX newY newWidth newHeight
  | Op.GetFullScreenInfo _ _ _ _ => s
  | Op.MoveWindowTo x y => s.MoveWindowTo x y
  | Op.BringToFront force => s.BringToFront force
  | Op.Destroy => s.Destroy
  | Op.Minimize => s.Minimize
  | Op.Maximize => s.Maximize
  | Op.Restore => s.Restore
  | Op.Show => s.Show
  | Op.Hide => s.Hide
  | Op.SetWindowMode newWindowMode => s.SetWindowMode newWindowMode
  | Op.IsMaximized => s
  | Op.IsMinimized => s
  | Op.IsVisible => s
  | Op.GetRestoredDimensions x y width height =>
      (s.GetRestoredDimensions x y width height).2
  | Op.SetWindowFocus => s.SetWindowFocus
  | Op.SetOpacity opacity => s.SetOpacity opacity
  | Op.Enable enable => s.Enable enable
  | Op.IsPointInWindow _ _ => s
  | Op.GetWindowBorderSize => s
  | Op.GetWindowTitleBarSize => s
  | Op.IsForegroundWindow => s
  | Op.SetText text => s.SetText text

/-- State of the window after a finite sequence of calls, first call first. -/
def runOps {F : Type} (fl : FloatOps F) (s : MacWindow F) (ops : List (Op F)) :
    MacWindow F :=
  ops.foldl (Op.apply fl) s

/-- Number of entries of a null-terminated array before the first `nullptr`. -/
def countUntilNull (names : List CString) : Nat :=
  (names.takeWhile Option.isSome).length

/-- Base-class constructor used in the examples: the window at the origin with
the given size. -/
def originBase (width height : Int) : GenericWindow :=
  { m_X := 0, m_Y := 0, m_Width := width, m_Height := height }

/-- Example state: the 800 by 600 window "demo" moved to (100, 50). -/
def sampleWindow : MacWindow FloatTerm :=
  (MacWindow.Make FloatTerm.ops originBase 800 600 (some "demo")).MoveWindowTo 100 50

/-- Example state whose sum `m_X + m_Width` leaves the `int32` range: the sample
window reshaped to x = 2147483000, width = 1000. -/
def overflowWindow : MacWindow FloatTerm :=
  sampleWindow.ReshapeWindow 2147483000 0 1000 10

/-- The geometry, the title, the aspect ratio and the DPI scale of `t` are those
of `s`. -/
def SameGeometryAndMetadata {F : Type} (s t : MacWindow F) : Prop :=
  t.m_X = s.m_X ∧ t.m_Y = s.m_Y ∧ t.m_Width = s.m_Width ∧ t.m_Height = s.m_Height ∧
  t.m_Title = s.m_Title ∧ t.GetAspectRatio = s.GetAspectRatio ∧
  t.GetDPIScaleFactor = s.GetDPIScaleFactor

/-- The visible, minimized and maximized flags of `t` are those of `s`. -/
def SameFlags {F : Type} (s t : MacWindow F) : Prop :=
  t.IsVisible = s.IsVisible ∧ t.IsMinimized = s.IsMinimized ∧
  t.IsMaximized = s.IsMaximized

/-! ## Integer arithmetic -/

/-- On an in-range sum the `int32` reduction is the identity. -/
theorem wrapInt32_of_InInt32 (n : Int) (h : InInt32 n) : wrapInt32 n = n := by
  unfold InInt32 INT32_MIN INT32_MAX at h
  unfold wrapInt32
  omega

/-- Outside the range condition the two sums of `IsPointInWindow` wrap: for
x = 2147483000 and width = 1000 the point (2147483500, 5) lies between the
edges as integers and is reported outside. -/
theorem IsPointInWindow_overflowWindow :
    ¬ InInt32 (overflowWindow.m_X + overflowWindow.m_Width) ∧
    (overflowWindow.m_X < 2147483500 ∧
      2147483500 < overflowWindow.m_X + overflowWindow.m_Width) ∧
    (overflowWindow.m_Y < 5 ∧ 5 < overflowWindow.m_Y + overflowWindow.m_Height) ∧
    overflowWindow.IsPointInWindow 2147483500 5 = false := by
  decide

/-! ## Frame lemmas -/

section Frame

variable {F : Type}

/-- A property kept by every call holds after every sequence of calls. -/
theorem runOps_induction (fl : FloatOps F) (P : MacWindow F → Prop)
    (hstep : ∀ s op, P s → P (Op.apply fl s op)) :
    ∀ (ops : List (Op F)) (s : MacWindow F), P s → P (runOps fl s ops) := by
  intro ops
  induction ops with
  | nil => intro s hs; exact hs
  | cons op rest ih =>
    intro s hs
    exact ih (Op.apply fl s op) (hstep s op hs)

/-- No call writes `m_AspectRatio`. -/
theorem Op.apply_m_AspectRatio (fl : FloatOps F) (s : MacWindow F) (op : Op F) :
    (op.apply fl s).m_AspectRatio = s.m_AspectRatio := by
  cases op <;> simp only [Op.apply, MacWindow.GetDPIScaleFactorAtPoint,
    MacWindow.CreateVKSurface, MacWindow.GetRequiredInstanceExtensions,
    MacWindow.SetDPIScaleFactor, MacWindow.Initialize, MacWindow.ReshapeWindow,
    MacWindow.MoveWindowTo, MacWindow.BringToFront, MacWindow.Destroy,
    MacWindow.Minimize, MacWindow.Maximize, MacWindow.Restore, MacWindow.Show,
    MacWindow.Hide, MacWindow.SetWindowMode, MacWindow.GetRestoredDimensions,
    MacWindow.SetWindowFocus, MacWindow.SetOpacity, MacWindow.Enable,
    MacWindow.SetText] <;> split <;> rfl

/-- No call writes `m_DPIScaleFactor`. -/
theorem Op.apply_m_DPIScaleFactor (fl : FloatOps F) (s : MacWindow F) (op : Op F) :
    (op.apply fl s).m_DPIScaleFactor = s.m_DPIScaleFactor := by
  cases op <;> simp only [Op.apply, MacWindow.GetDPIScaleFactorAtPoint,
    MacWindow.CreateVKSurface, MacWindow.GetRequiredInstanceExtensions,
    MacWindow.SetDPIScaleFactor, MacWindow.Initialize, MacWindow.ReshapeWindow,
    MacWindow.MoveWindowTo, MacWindow.BringToFront, MacWindow.Destroy,
    MacWindow.Minimize, MacWindow.Maximize, MacWindow.Restore, MacWindow.Show,
    MacWindow.Hide, MacWindow.SetWindowMode, MacWindow.GetRestoredDimensions,
    MacWindow.SetWindowFocus, MacWindow.SetOpacity, MacWindow.Enable,
    MacWindow.SetText] <;> split <;> rfl

/-- A call leaves `m_Minimized` as it is or clears it. -/
theorem Op.apply_m_Minimized (fl : FloatOps F) (s : MacWindow F) (op : Op F) :
    (op.apply fl s).m_Minimized = s.m_Minimized ∨
      (op.apply fl s).m_Minimized = false := by
  cases op <;> simp only [Op.apply, MacWindow.GetDPIScaleFactorAtPoint,
    MacWindow.CreateVKSurface, MacWindow.GetRequiredInstanceExtensions,
    MacWindow.SetDPIScaleFactor, MacWindow.Initialize, MacWindow.ReshapeWindow,
    MacWindow.MoveWindowTo, MacWindow.BringToFront, MacWindow.Destroy,
    MacWindow.Minimize, MacWindow.Maximize, MacWindow.Restore, MacWindow.Show,
    MacWindow.Hide, MacWindow.SetWindowMode, MacWindow.GetRestoredDimensions,
    MacWindow.SetWindowFocus, MacWindow.SetOpacity, MacWindow.Enable,
    MacWindow.SetText, or_true, true_or] <;> split <;> exact Or.inl rfl

/-- A cleared `m_Minimized` stays cleared across a call. -/
theorem Op.apply_m_Minimized_false (fl : FloatOps F) (s : MacWindow F) (op : Op F)
    (h : s.m_Minimized = false) : (op.apply fl s).m_Minimized = false := by
  rcases Op.apply_m_Minimized fl s op with h1 | h1
  · rw [h1, h]
  · exact h1

end Frame

/-! ## Properties of the window -/

section Properties

variable {F : Type}

/-- C1: when the sums X + Width and Y + Height are in the `int32` range,
`IsPointInWindow x y` is true exactly when X < x < X + Width and
Y < y < Y + Height, and every point with x = X, x = X + Width, y = Y or
y = Y + Height is reported as outside. -/
theorem IsPointInWindow_strict_rectangle (s : MacWindow F) (x y : Int)
    (hX : InInt32 (s.m_X + s.m_Width)) (hY : InInt32 (s.m_Y + s.m_Height)) :
    (s.IsPointInWindow x y = true ↔
      (s.m_X < x ∧ x < s.m_X + s.m_Width) ∧ (s.m_Y < y ∧ y < s.m_Y + s.m_Height)) ∧
    (x = s.m_X ∨ x = s.m_X + s.m_Width ∨ y = s.m_Y ∨ y = s.m_Y + s.m_Height →
      s.IsPointInWindow x y = false) := by
  have key : s.IsPointInWindow x y = true ↔
      (s.m_X < x ∧ x < s.m_X + s.m_Width) ∧ (s.m_Y < y ∧ y < s.m_Y + s.m_Height) := by
    unfold MacWindow.IsPointInWindow
    rw [wrapInt32_of_InInt32 _ hX, wrapInt32_of_InInt32 _ hY]
    simp only [gt_iff_lt, Bool.and_eq_true, decide_eq_true_eq, Bool.if_true_left,
      Bool.or_false, Bool.and_eq_true, ite_eq_left_iff, Bool.not_eq_true,
      Bool.false_eq_true, imp_false, Bool.not_eq_false]
  refine ⟨key, ?_⟩
  intro hb
  cases hres : s.IsPointInWindow x y with
  | false => rfl
  | true =>
    have h := key.mp hres
    omega

/-- Instance of C1 on the 800 by 600 window at (100, 50): the sums are in
range, (101, 51) is inside and the boundary point (100, 51) is outside. -/
theorem IsPointInWindow_strict_rectangle_witness :
    InInt32 (sampleWindow.m_X + sampleWindow.m_Width) ∧
    InInt32 (sampleWindow.m_Y + sampleWindow.m_Height) ∧
    sampleWindow.IsPointInWindow 101 51 = true ∧
    sampleWindow.IsPointInWindow 100 51 = false :=
  ⟨by decide, by decide,
   (IsPointInWindow_strict_rectangle sampleWindow 101 51 (by decide) (by decide)).1.mpr
     (by decide),
   (IsPointInWindow_strict_rectangle sampleWindow 100 51 (by decide) (by decide)).2
     (Or.inl rfl)⟩

/-- C2: `IsVisible` is true after `Show` and false after `Hide`; `Show` on a
visible state and `Hide` on a hidden state return the state unchanged; `Show`
after `Show` is `Show` and `Hide` after `Hide` is `Hide`. -/
theorem Show_Hide_idempotent (s : MacWindow F) :
    s.Show.IsVisible = true ∧ s.Hide.IsVisible = false ∧
    (s.IsVisible = true → s.Show = s) ∧ (s.IsVisible = false → s.Hide = s) ∧
    s.Show.Show = s.Show ∧ s.Hide.Hide = s.Hide := by
  obtain ⟨g, title, mode, app, visible, ratio, dpi, minimized, maximized⟩ := s
  cases visible <;> simp [MacWindow.Show, MacWindow.Hide, MacWindow.IsVisible]

/-- Instance of C2: the new window is hidden, so `Hide` returns it unchanged;
once shown it is visible, and `Show` returns the shown window unchanged. -/
theorem Show_Hide_idempotent_witness :
    sampleWindow.IsVisible = false ∧ sampleWindow.Hide = sampleWindow ∧
    sampleWindow.Show.IsVisible = true ∧
    sampleWindow.Show.Show = sampleWindow.Show :=
  ⟨rfl, (Show_Hide_idempotent sampleWindow).2.2.2.1 rfl,
   (Show_Hide_idempotent sampleWindow).1,
   (Show_Hide_idempotent sampleWindow.Show).2.2.1
     (Show_Hide_idempotent sampleWindow).1⟩

/-- C3: `IsMinimized` is false right after `Minimize`, whatever the state and
whatever value the minimized flag held before. -/
theorem Minimize_clears_flag (s : MacWindow F) (b : Bool) :
    s.Minimize.IsMinimized = false ∧
    (MacWindow.Minimize { s with m_Minimized := b }).IsMinimized = false :=
  ⟨rfl, rfl⟩

/-- C4: `IsMaximized` is true after `Maximize`, `Restore` returns every state
unchanged, and `IsMaximized` is still true after `Maximize` then `Restore`. -/
theorem Maximize_sets_Restore_keeps (s : MacWindow F) :
    s.Maximize.IsMaximized = true ∧ s.Restore = s ∧
    s.Maximize.Restore.IsMaximized = true :=
  ⟨rfl, rfl, rfl⟩

/-- C5: after `Make width height title` and any finite sequence of calls,
`GetAspectRatio` returns the value the constructor computed,
`width * 1.0f / height`; and `ReshapeWindow` leaves `GetAspectRatio` as it
was. -/
theorem GetAspectRatio_fixed_at_construction (fl : FloatOps F)
    (base : Int → Int → GenericWindow) (width height : Int) (title : CString)
    (ops : List (Op F)) :
    (runOps fl (MacWindow.Make fl base width height title) ops).GetAspectRatio =
      (MacWindow.Make fl base width height title).GetAspectRatio ∧
    (MacWindow.Make fl base width height title).GetAspectRatio =
      fl.div (fl.mul (fl.ofInt32 width) fl.one) (fl.ofInt32 height) ∧
    ∀ (s : MacWindow F) (newX newY newWidth newHeight : Int),
      (s.ReshapeWindow newX newY newWidth newHeight).GetAspectRatio =
        s.GetAspectRatio := by
  refine ⟨?_, rfl, fun _ _ _ _ _ => rfl⟩
  exact runOps_induction fl
    (fun t => t.GetAspectRatio = (MacWindow.Make fl base width height title).GetAspectRatio)
    (fun t op ht => (Op.apply_m_AspectRatio fl t op).trans ht) ops _ rfl

/-- C6: after `ReshapeWindow newX newY newWidth newHeight` the position and
size are exactly the four arguments; after `MoveWindowTo x y` the position is
`(x, y)` and the size is unchanged; neither call changes the title, the aspect
ratio, the DPI scale or the visible, minimized and maximized flags. -/
theorem Reshape_Move_overwrite_geometry (s : MacWindow F)
    (newX newY newWidth newHeight x y : Int) :
    ((s.ReshapeWindow newX newY newWidth newHeight).m_X = newX ∧
     (s.ReshapeWindow newX newY newWidth newHeight).m_Y = newY ∧
     (s.ReshapeWindow newX newY newWidth newHeight).m_Width = newWidth ∧
     (s.ReshapeWindow newX newY newWidth newHeight).m_Height = newHeight) ∧
    ((s.MoveWindowTo x y).m_X = x ∧ (s.MoveWindowTo x y).m_Y = y ∧
     (s.MoveWindowTo x y).m_Width = s.m_Width ∧
     (s.MoveWindowTo x y).m_Height = s.m_Height) ∧
    ((s.ReshapeWindow newX newY newWidth newHeight).m_Title = s.m_Title ∧
     (s.ReshapeWindow newX newY newWidth newHeight).GetAspectRatio = s.GetAspectRatio ∧
     (s.ReshapeWindow newX newY newWidth newHeight).GetDPIScaleFactor =
       s.GetDPIScaleFactor ∧
     SameFlags s (s.ReshapeWindow newX newY newWidth newHeight)) ∧
    ((s.MoveWindowTo x y).m_Title = s.m_Title ∧
     (s.MoveWindowTo x y).GetAspectRatio = s.GetAspectRatio ∧
     (s.MoveWindowTo x y).GetDPIScaleFactor = s.GetDPIScaleFactor ∧
     SameFlags s (s.MoveWindowTo x y)) :=
  ⟨⟨rfl, rfl, rfl, rfl⟩, ⟨rfl, rfl, rfl, rfl⟩,
   ⟨rfl, rfl, rfl, rfl, rfl, rfl⟩, ⟨rfl, rfl, rfl, rfl, rfl, rfl⟩⟩

/-- C7: after `Make` and any finite sequence of calls, `GetDPIScaleFactor`
returns `1.0f`, also right after `SetDPIScaleFactor v` for any `v`; and
`GetDPIScaleFactorAtPoint X Y` returns `1.0f` on every state for every `X`,
`Y`. -/
theorem DPIScaleFactor_constant_one (fl : FloatOps F)
    (base : Int → Int → GenericWindow) (width height : Int) (title : CString)
    (ops : List (Op F)) (v : F) :
    (runOps fl (MacWindow.Make fl base width height title) ops).GetDPIScaleFactor =
      fl.one ∧
    ((runOps fl (MacWindow.Make fl base width height title) ops).SetDPIScaleFactor
      v).GetDPIScaleFactor = fl.one ∧
    ∀ (s : MacWindow F) (X Y : F), (s.GetDPIScaleFactorAtPoint fl X Y).1 = fl.one := by
  have h : (runOps fl (MacWindow.Make fl base width height title) ops).GetDPIScaleFactor
      = fl.one :=
    runOps_induction fl (fun t => t.GetDPIScaleFactor = fl.one)
      (fun t op ht => (Op.apply_m_DPIScaleFactor fl t op).trans ht) ops _ rfl
  exact ⟨h, h, fun _ _ _ => rfl⟩

/-- C8: on every state `GetRequiredInstanceExtensions` stores 2 in `*count` and
returns the array whose entries are the generic surface extension name, the
macOS surface extension name and `nullptr`; the count is the number of entries
before the terminator and the number of non-null entries; the window state is
unchanged and the result is the same on every other state. -/
theorem GetRequiredInstanceExtensions_fixed (s : MacWindow F) (count : Nat) :
    (s.GetRequiredInstanceExtensions count).count = 2 ∧
    (s.GetRequiredInstanceExtensions count).names =
      [some VK_KHR_SURFACE_EXTENSION_NAME, some VK_MVK_MACOS_SURFACE_EXTENSION_NAME,
       none] ∧
    countUntilNull (s.GetRequiredInstanceExtensions count).names =
      (s.GetRequiredInstanceExtensions count).count ∧
    ((s.GetRequiredInstanceExtensions count).names.filter Option.isSome).length =
      (s.GetRequiredInstanceExtensions count).count ∧
    (s.GetRequiredInstanceExtensions count).state = s ∧
    ∀ (s' : MacWindow F) (count' : Nat),
      (s'.GetRequiredInstanceExtensions count').count =
        (s.GetRequiredInstanceExtensions count).count ∧
      (s'.GetRequiredInstanceExtensions count').names =
        (s.GetRequiredInstanceExtensions count).names :=
  ⟨rfl, rfl, rfl, rfl, rfl, fun _ _ => ⟨rfl, rfl⟩⟩

/-- C9: `Show` and `Hide` leave the minimized and maximized flags, `Minimize`
the visible and maximized flags, `Maximize` the visible and minimized flags, and
all four the geometry, title, aspect ratio and DPI scale unchanged; a visible
window stays visible across `Minimize` and `Maximize`, a maximized window stays
maximized across `Show`, `Hide` and `Minimize`, and a window can be visible and
maximized at once. Each call changes at most its own flag: the state after it
is the state before it with that one field replaced, so the window mode and the
application pointer are unchanged as well. -/
theorem flags_independent (s : MacWindow F) :
    (SameGeometryAndMetadata s s.Show ∧ s.Show.IsMinimized = s.IsMinimized ∧
      s.Show.IsMaximized = s.IsMaximized) ∧
    (SameGeometryAndMetadata s s.Hide ∧ s.Hide.IsMinimized = s.IsMinimized ∧
      s.Hide.IsMaximized = s.IsMaximized) ∧
    (SameGeometryAndMetadata s s.Minimize ∧ s.Minimize.IsVisible = s.IsVisible ∧
      s.Minimize.IsMaximized = s.IsMaximized) ∧
    (SameGeometryAndMetadata s s.Maximize ∧ s.Maximize.IsVisible = s.IsVisible ∧
      s.Maximize.IsMinimized = s.IsMinimized) ∧
    (s.IsVisible = true →
      s.Minimize.IsVisible = true ∧ s.Maximize.IsVisible = true) ∧
    (s.IsMaximized = true →
      s.Show.IsMaximized = true ∧ s.Hide.IsMaximized = true ∧
        s.Minimize.IsMaximized = true) ∧
    (s.Show.Maximize.IsVisible = true ∧ s.Show.Maximize.IsMaximized = true) ∧
    (s.Show = { s with m_Visible := true } ∧
      s.Hide = { s with m_Visible := false } ∧
      s.Minimize = { s with m_Minimized := false } ∧
      s.Maximize = { s with m_Maximized := true }) ∧
    (s.Show.m_WindowMode = s.m_WindowMode ∧ s.Hide.m_WindowMode = s.m_WindowMode ∧
      s.Minimize.m_WindowMode = s.m_WindowMode ∧
      s.Maximize.m_WindowMode = s.m_WindowMode) ∧
    (s.Show.m_Application = s.m_Application ∧
      s.Hide.m_Application = s.m_Application ∧
      s.Minimize.m_Application = s.m_Application ∧
      s.Maximize.m_Application = s.m_Application) := by
  obtain ⟨g, title, mode, app, visible, ratio, dpi, minimized, maximized⟩ := s
  cases visible <;>
    simp [SameGeometryAndMetadata, MacWindow.Show, MacWindow.Hide, MacWindow.Minimize,
      MacWindow.Maximize, MacWindow.IsVisible, MacWindow.IsMinimized,
      MacWindow.IsMaximized, MacWindow.GetAspectRatio, MacWindow.GetDPIScaleFactor]

/-- Instance of C9: the shown sample window is visible and stays so across
`Minimize` and `Maximize`; once maximized it stays so across `Show`, `Hide` and
`Minimize`. -/
theorem flags_independent_witness :
    sampleWindow.Show.IsVisible = true ∧
    (sampleWindow.Show.Minimize.IsVisible = true ∧
      sampleWindow.Show.Maximize.IsVisible = true) ∧
    sampleWindow.Maximize.IsMaximized = true ∧
    (sampleWindow.Maximize.Show.IsMaximized = true ∧
      sampleWindow.Maximize.Hide.IsMaximized = true ∧
      sampleWindow.Maximize.Minimize.IsMaximized = true) :=
  ⟨rfl, (flags_independent sampleWindow.Show).2.2.2.2.1 rfl,
   rfl, (flags_independent sampleWindow.Maximize).2.2.2.2.2.1 rfl⟩

/-- C10: after `Make width height title` and any finite sequence of calls,
`IsMinimized` returns false: the new window is not minimized and no call turns
a cleared flag on. -/
theorem never_minimized (fl : FloatOps F)
    (base : Int → Int → GenericWindow) (width height : Int) (title : CString)
    (ops : List (Op F)) :
    (runOps fl (MacWindow.Make fl base width height title) ops).IsMinimized = false ∧
    (MacWindow.Make fl base width height title).IsMinimized = false ∧
    ∀ (s : MacWindow F) (op : Op F),
      s.IsMinimized = false → (op.apply fl s).IsMinimized = false :=
  ⟨runOps_induction fl (fun t => t.IsMinimized = false)
      (fun t op ht => Op.apply_m_Minimized_false fl t op ht) ops _ rfl,
   rfl, fun s op h => Op.apply_m_Minimized_false fl s op h⟩

/-- Instance of C10: the sample window is not minimized, stays so after a
`Minimize` call, and a window built by `Make` is not minimized after the calls
`Minimize`, `Show`, `Minimize`. -/
theorem never_minimized_witness :
    sampleWindow.IsMinimized = false ∧
    (Op.apply FloatTerm.ops sampleWindow Op.Minimize).IsMinimized = false ∧
    (runOps FloatTerm.ops (MacWindow.Make FloatTerm.ops originBase 800 600 (some "demo"))
      [Op.Minimize, Op.Show, Op.Minimize]).IsMinimized = false :=
  ⟨rfl,
   (never_minimized FloatTerm.ops originBase 800 600 (some "demo") []).2.2
     sampleWindow Op.Minimize rfl,
   (never_minimized FloatTerm.ops originBase 800 600 (some "demo")
     [Op.Minimize, Op.Show, Op.Minimize]).1⟩

end Properties

end MacWindowModel
